import Mathlib

/-!
Verification of the JSON-file-backed Todo Store of this repository
(`todo_server_node/src/storage.ts`, `todo_server_node/src/types.ts`, and the
error/retry utilities in `errors.ts`).

The development has two layers, mirroring the two levels at which the source
operates:

* a raw layer (`JValue`) modelling parsed JSON values together with the
  JavaScript coercions the migration code applies to them
  (`TodoStorage.migrateData`, `TodoStorage.validateAndMigrate`, and the zod
  schemas `TodoSchema` / `TodoListSchema`), and

* a typed layer (`Todo`, `TodoList`, `TodoStorageS`) modelling the in-memory
  store and its CRUD operations (`TodoStorage.addTodo`, `updateTodo`,
  `deleteTodo`, `getStats`, `getTodoList`, `createBackup`,
  `restoreFromBackup`, together with `TodoUtils`).

Timestamps: the source stores ISO-8601 strings and compares them through
`new Date(...)`. In the raw layer timestamps stay strings (only their format
is validated, never compared); in the typed layer a timestamp is the `Nat`
epoch value `Date.getTime()` would produce, so `new Date(a) < new Date(b)`
becomes `a < b`.
-/

set_option autoImplicit false

/-- Parsed JSON values, the domain `JSON.parse` produces and on which
`validateAndMigrate` operates. Numbers are modelled as integers (every
number the store itself writes is an integer count). -/
inductive JValue where
  | null
  | bool (b : Bool)
  | num (n : Int)
  | str (s : String)
  | arr (elems : List JValue)
  | obj (fields : List (String × JValue))

/-- JavaScript truthiness of a defined value: `false`, `0`, `""` and `null`
are falsy, every array or object is truthy. -/
def jsTruthy : JValue → Bool
  | .null => false
  | .bool b => b
  | .num n => n != 0
  | .str s => s != ""
  | .arr _ => true
  | .obj _ => true

/-- First field with the given key in an object's field list. -/
def lookupField : List (String × JValue) → String → Option JValue
  | [], _ => none
  | (k', v) :: rest, k => if k' = k then some v else lookupField rest k

/-- Property access `v[k]`: `none` models `undefined` (missing key, or a
receiver that is not an object). -/
def jGet : JValue → String → Option JValue
  | .obj fs, k => lookupField fs k
  | _, _ => none

/-- Truthiness of a possibly-undefined value (`undefined` is falsy). -/
def optTruthy : Option JValue → Bool
  | some v => jsTruthy v
  | none => false

/-- The JavaScript expression `v || d` applied to a possibly-undefined `v`. -/
def jsOr (o : Option JValue) (d : JValue) : JValue :=
  match o with
  | some v => if jsTruthy v then v else d
  | none => d

/-- Whether a value is `null` (property access on `null` throws in JS). -/
def isNullB : JValue → Bool
  | .null => true
  | _ => false

/-- Extract a string value (zod `z.string()` accepts exactly strings). -/
def getStr? : Option JValue → Option String
  | some (.str s) => some s
  | _ => none

/-- A hexadecimal digit, either case. -/
def isHexDigit (c : Char) : Bool :=
  c.isDigit || ('a' ≤ c && c ≤ 'f') || ('A' ≤ c && c ≤ 'F')

/-- Model of zod's `z.string().uuid()` check: 36 characters in the
8-4-4-4-12 hyphenated hexadecimal shape. -/
def isUuid (s : String) : Bool :=
  let l := s.data
  l.length = 36 &&
    (l.enum.all fun p =>
      if p.1 = 8 ∨ p.1 = 13 ∨ p.1 = 18 ∨ p.1 = 23 then p.2 = '-'
      else isHexDigit p.2)

/-- Model of zod's `z.string().datetime()` check: the UTC ISO-8601 shape
`YYYY-MM-DDTHH:MM:SS(.fraction)?Z` (digit-shape check; calendar-range
refinements of the zod regex are immaterial to every claim below). -/
def isDatetime (s : String) : Bool :=
  match s.data with
  | y1 :: y2 :: y3 :: y4 :: '-' :: m1 :: m2 :: '-' :: d1 :: d2 :: 'T' ::
      h1 :: h2 :: ':' :: n1 :: n2 :: ':' :: s1 :: s2 :: rest =>
    [y1, y2, y3, y4, m1, m2, d1, d2, h1, h2, n1, n2, s1, s2].all (·.isDigit) &&
    (match rest with
     | ['Z'] => true
     | '.' :: more =>
       more.length ≥ 2 && more.dropLast.all (·.isDigit) &&
         more.getLast? = some 'Z'
     | _ => false)
  | _ => false

/-- Model of zod's `z.string().date()` check: the `YYYY-MM-DD` shape. -/
def isDate (s : String) : Bool :=
  match s.data with
  | [y1, y2, y3, y4, '-', m1, m2, '-', d1, d2] =>
    [y1, y2, y3, y4, m1, m2, d1, d2].all (·.isDigit)
  | _ => false

example : isUuid "123e4567-e89b-42d3-a456-426614174000" = true := by decide
example : isUuid "a" = false := by decide
example : isDatetime "2024-01-01T00:00:00Z" = true := by decide
example : isDatetime "2024-01-01" = false := by decide
example : isDate "2024-01-01" = true := by decide

/-- Elementwise check of `z.array(z.string().max(50))` for the `tags` field. -/
def parseTags : List JValue → Option (List String)
  | [] => some []
  | .str s :: rest => if s.length ≤ 50 then (parseTags rest).map (s :: ·) else none
  | _ => none

/-- The normalized Todo object a successful `TodoSchema.parse` returns:
exactly the nine schema keys, with `dueDate` omitted when absent (zod
strips unknown keys and reproduces the validated fields). -/
def mkTodoObj (id title descr : String) (completed : Bool) (ca ua : String)
    (due : Option String) (pr : String) (tags : List String) : JValue :=
  .obj ([("id", .str id), ("title", .str title), ("description", .str descr),
         ("completed", .bool completed), ("createdAt", .str ca),
         ("updatedAt", .str ua)] ++
        (match due with
         | some d => [("dueDate", .str d)]
         | none => []) ++
        [("priority", .str pr), ("tags", .arr (tags.map .str))])

/-- The normalized metadata object of a successful `TodoListSchema.parse`. -/
def mkMetaObj (version lastModified : String)
    (totalCount completedCount : Int) : JValue :=
  .obj [("version", .str version), ("lastModified", .str lastModified),
        ("totalCount", .num totalCount), ("completedCount", .num completedCount)]

/-- The normalized TodoList object of a successful `TodoListSchema.parse`. -/
def mkTodoListObj (todos : List JValue) (meta : JValue) : JValue :=
  .obj [("todos", .arr todos), ("metadata", meta)]

/-- Extract an integer (zod `z.number().int()`). -/
def getInt? : Option JValue → Option Int
  | some (.num n) => some n
  | _ => none

/-- Model of `TodoSchema.parse` (types.ts lines 79-89) on a parsed JSON
value: `none` models a thrown `ZodError`, `some` the validated value.
Field order follows the schema declaration. -/
def zodParseTodoJ (j : JValue) : Option JValue :=
  match getStr? (jGet j "id") with
  | none => none
  | some id =>
  if !isUuid id then none else
  match getStr? (jGet j "title") with
  | none => none
  | some title =>
  if !(1 ≤ title.length && title.length ≤ 200) then none else
  match (match jGet j "description" with
         | none => some ""
         | some (.str s) => if s.length ≤ 1000 then some s else none
         | some _ => none) with
  | none => none
  | some descr =>
  match (match jGet j "completed" with
         | none => some false
         | some (.bool b) => some b
         | some _ => none) with
  | none => none
  | some completed =>
  match getStr? (jGet j "createdAt") with
  | none => none
  | some ca =>
  if !isDatetime ca then none else
  match getStr? (jGet j "updatedAt") with
  | none => none
  | some ua =>
  if !isDatetime ua then none else
  match (match jGet j "dueDate" with
         | none => some none
         | some (.str s) => if isDate s then some (some s) else none
         | some _ => none) with
  | none => none
  | some due =>
  match (match jGet j "priority" with
         | none => some "medium"
         | some (.str s) =>
           if s = "low" ∨ s = "medium" ∨ s = "high" then some s else none
         | some _ => none) with
  | none => none
  | some pr =>
  match (match jGet j "tags" with
         | none => some []
         | some (.arr xs) => if xs.length ≤ 10 then parseTags xs else none
         | some _ => none) with
  | none => none
  | some tags =>
  some (mkTodoObj id title descr completed ca ua due pr tags)

/-- `z.array(TodoSchema)` elementwise. -/
def zodParseTodosJ : List JValue → Option (List JValue)
  | [] => some []
  | j :: rest =>
    match zodParseTodoJ j with
    | none => none
    | some o => (zodParseTodosJ rest).map (o :: ·)

/-- Model of `TodoListSchema.parse` (types.ts lines 91-99). On a non-object
input every field lookup is `undefined`, so the required `metadata` check
fails, matching zod's rejection of non-objects. -/
def zodParseTodoListJ (j : JValue) : Option JValue :=
  match (match jGet j "todos" with
         | none => some []
         | some (.arr xs) => zodParseTodosJ xs
         | some _ => none) with
  | none => none
  | some todos =>
  match jGet j "metadata" with
  | none => none
  | some m =>
  match (match jGet m "version" with
         | none => some "1.0.0"
         | some (.str s) => some s
         | some _ => none) with
  | none => none
  | some ver =>
  match getStr? (jGet m "lastModified") with
  | none => none
  | some lm =>
  if !isDatetime lm then none else
  match getInt? (jGet m "totalCount") with
  | none => none
  | some tc =>
  if tc < 0 then none else
  match getInt? (jGet m "completedCount") with
  | none => none
  | some cc =>
  if cc < 0 then none else
  some (mkTodoListObj todos (mkMetaObj ver lm tc cc))

/-- Coercion of one legacy array element into a "full" Todo object
(storage.ts lines 161-171). Defaults apply to missing *or falsy* fields
(the source uses `||`); `completed` is `Boolean coerced`; `tags` is kept
only when it is an array. The in-memory object carries `dueDate: undefined`
when `todo.dueDate` is falsy; `JSON.stringify` drops such a key and JS deep
equality ignores it, so the model omits it. -/
def migrateTodoElemJ (gid now : String) (t : JValue) : JValue :=
  .obj ([("id", jsOr (jGet t "id") (.str gid)),
         ("title", jsOr (jGet t "title") (.str "Untitled")),
         ("description", jsOr (jGet t "description") (.str "")),
         ("completed", .bool (optTruthy (jGet t "completed"))),
         ("createdAt", jsOr (jGet t "createdAt") (.str now)),
         ("updatedAt", jsOr (jGet t "updatedAt") (.str now))] ++
        (match jGet t "dueDate" with
         | some v => if jsTruthy v then [("dueDate", v)] else []
         | none => []) ++
        [("priority", jsOr (jGet t "priority") (.str "medium")),
         ("tags", match jGet t "tags" with
                  | some (.arr xs) => .arr xs
                  | _ => .arr [])])

/-- `rawData.map(...)` of the array migration; the index feeds the fresh-id
generator `gen`, one fresh id per element (`TodoUtils.generateId`). -/
def migrateTodos (gen : Nat → String) (now : String) :
    Nat → List JValue → List JValue
  | _, [] => []
  | i, t :: ts => migrateTodoElemJ (gen i) now t :: migrateTodos gen now (i + 1) ts

/-- Errors of the migration path: `ValidationError` with its message, or a
raw TypeError (property access on `null`), which is *not* a
ValidationError for the retry logic. -/
inductive MigErr where
  | validation (msg : String)
  | typeErr
deriving DecidableEq

/-- Model of `TodoStorage.migrateData` (storage.ts lines 154-228). The
result pairs the data the store ends up holding with the file content the
embedded `saveToFile` writes (`none` when nothing is written). The
`updateMetadata` run by that save recomputes `lastModified`, `totalCount`
and `completedCount` over the migrated todos; with a single `now` per
operation and `Boolean(x)` truthiness-invariant, the recomputed metadata
coincides with the one `migrateData` builds, so one value serves as both.
A `null` array element makes the JS property accesses throw inside the
branch's `try`, yielding that branch's ValidationError. -/
def migrateDataJ (gen : Nat → String) (now : String) (raw : JValue) :
    Except MigErr (JValue × Option JValue) :=
  match raw with
  | .arr elems =>
    if elems.any isNullB then
      .error (.validation "Failed to migrate array format data")
    else
      let todos := migrateTodos gen now 0 elems
      let meta := mkMetaObj "1.0.0" now (elems.length : Int)
        ((elems.filter (fun t => optTruthy (jGet t "completed"))).length : Int)
      let d := mkTodoListObj todos meta
      .ok (d, some d)
  | .null => .error .typeErr
  | _ =>
    if optTruthy (jGet raw "todos") && !optTruthy (jGet raw "metadata") then
      match jGet raw "todos" with
      | some (.arr todos) =>
        if todos.any isNullB then
          .error (.validation "Failed to add metadata to existing todo data")
        else
          let meta := mkMetaObj "1.0.0" now (todos.length : Int)
            ((todos.filter (fun t => optTruthy (jGet t "completed"))).length : Int)
          let d := mkTodoListObj todos meta
          .ok (d, some d)
      | _ => .error (.validation "Failed to add metadata to existing todo data")
    else
      .error (.validation "Unable to migrate todo data - unsupported format")

/-- Model of `TodoStorage.validateAndMigrate` (storage.ts lines 137-149):
try `TodoListSchema.parse`; on validation failure attempt migration. The
result pairs the validated data with the optional file write it performed. -/
def validateAndMigrateJ (gen : Nat → String) (now : String) (raw : JValue) :
    Except MigErr (JValue × Option JValue) :=
  match zodParseTodoListJ raw with
  | some v => .ok (v, none)
  | none => migrateDataJ gen now raw

example :
    zodParseTodoListJ (.arr [.obj [("id", .str "a")]]) = none := rfl

/-! ## Typed layer: the in-memory data model and the CRUD operations -/

/-- `TodoPriority` (types.ts line 8). -/
inductive Priority where
  | low
  | medium
  | high
deriving DecidableEq

/-- The `Todo` interface (types.ts lines 10-20). Timestamps are the epoch
values `new Date(s).getTime()` yields for the stored ISO strings. -/
structure Todo where
  id : String
  title : String
  description : String
  completed : Bool
  createdAt : Nat
  updatedAt : Nat
  dueDate : Option Nat
  priority : Priority
  tags : List String
deriving DecidableEq

/-- The `metadata` part of the `TodoList` interface (types.ts lines 24-29). -/
structure Metadata where
  version : String
  lastModified : Nat
  totalCount : Nat
  completedCount : Nat
deriving DecidableEq

/-- The `TodoList` interface (types.ts lines 22-30). -/
structure TodoList where
  todos : List Todo
  metadata : Metadata
deriving DecidableEq

/-- A partial update as `TodoStorage.updateTodo` accepts it:
`Partial<Omit<Todo, 'id'>>` (storage.ts line 293). Every `Todo` field
except `id` may be supplied — including `createdAt` and `updatedAt`. -/
structure TodoUpdate where
  title : Option String := none
  description : Option String := none
  completed : Option Bool := none
  createdAt : Option Nat := none
  updatedAt : Option Nat := none
  dueDate : Option Nat := none
  priority : Option Priority := none
  tags : Option (List String) := none
deriving DecidableEq

/-- `TodoUtils.updateTodo` (types.ts lines 163-169):
`{ ...existingTodo, ...updates, updatedAt: now }`. A supplied `updatedAt`
is overwritten because `updatedAt: now` comes after the spread; every
other supplied field — `createdAt` included — replaces the existing one. -/
def TodoUtils.applyUpdate (existing : Todo) (u : TodoUpdate) (now : Nat) : Todo :=
  { id := existing.id
    title := u.title.getD existing.title
    description := u.description.getD existing.description
    completed := u.completed.getD existing.completed
    createdAt := u.createdAt.getD existing.createdAt
    updatedAt := now
    dueDate := match u.dueDate with
               | some d => some d
               | none => existing.dueDate
    priority := u.priority.getD existing.priority
    tags := u.tags.getD existing.tags }

/-- `TodoUtils.isOverdue` (types.ts lines 239-241):
`todo.dueDate && new Date(todo.dueDate) < new Date() && !todo.completed`. -/
def TodoUtils.isOverdue (t : Todo) (now : Nat) : Bool :=
  (match t.dueDate with
   | some d => decide (d < now)
   | none => false) && !t.completed

/-- The record `TodoUtils.getStats` accumulates (types.ts lines 247-252);
`byPriority` is the three fixed buckets. -/
structure Stats where
  total : Nat
  completed : Nat
  overdue : Nat
  byLow : Nat
  byMedium : Nat
  byHigh : Nat
deriving DecidableEq

/-- One `todos.forEach` step of `TodoUtils.getStats` (types.ts lines 254-258). -/
def TodoUtils.statsStep (now : Nat) (acc : Stats) (t : Todo) : Stats :=
  { acc with
    completed := if t.completed then acc.completed + 1 else acc.completed
    overdue := if TodoUtils.isOverdue t now then acc.overdue + 1 else acc.overdue
    byLow := if t.priority = .low then acc.byLow + 1 else acc.byLow
    byMedium := if t.priority = .medium then acc.byMedium + 1 else acc.byMedium
    byHigh := if t.priority = .high then acc.byHigh + 1 else acc.byHigh }

/-- `TodoUtils.getStats` (types.ts lines 246-261). -/
def TodoUtils.getStats (todos : List Todo) (now : Nat) : Stats :=
  todos.foldl (TodoUtils.statsStep now)
    { total := todos.length, completed := 0, overdue := 0,
      byLow := 0, byMedium := 0, byHigh := 0 }

/-- `TodoUtils.validateTodo` = `TodoSchema.parse` on an already-typed Todo:
only the refinement checks remain (uuid id, title 1-200, description
≤ 1000, at most 10 tags of ≤ 50 characters); the datetime/date checks are
vacuous on the epoch-valued timestamps of the typed layer. -/
def TodoUtils.validateTodoB (t : Todo) : Bool :=
  isUuid t.id && 1 ≤ t.title.length && t.title.length ≤ 200 &&
    t.description.length ≤ 1000 && t.tags.length ≤ 10 &&
    t.tags.all (fun tag => tag.length ≤ 50)

/-- The error kinds `TodoStorage` operations raise (errors.ts):
`StorageError`, `ValidationError` and `NotFoundError` with their messages,
plus the plain `Error` wrappers of `createBackup`/`restoreFromBackup`. -/
inductive StoreErr where
  | storage (msg : String)
  | validation (msg : String)
  | notFound (resource id : String)
  | generic (msg : String)
deriving DecidableEq

/-- The in-memory state of a `TodoStorage` instance (storage.ts lines
18-21), extended with the observable file-system effects: `writes` lists
the successive contents written to the primary store file and `backups`
the `(path, content)` pairs written by `createBackup`. -/
structure TodoStorageS where
  filePath : String
  data : TodoList
  isInit : Bool
  writes : List TodoList
  backups : List (String × TodoList)
deriving DecidableEq

/-- `TodoStorage.ensureInitialized` (storage.ts lines 404-408). -/
def TodoStorageS.ensureInit (s : TodoStorageS) : Option StoreErr :=
  if s.isInit then none
  else some (.storage "Storage not initialized. Call initialize() first.")

/-- `TodoStorage.updateMetadata` (storage.ts lines 233-241). -/
def TodoStorageS.updateMetadata (d : TodoList) (now : Nat) : TodoList :=
  let stats := TodoUtils.getStats d.todos now
  { d with metadata := { d.metadata with
      lastModified := now
      totalCount := stats.total
      completedCount := stats.completed } }

/-- `TodoStorage.saveToFile` (storage.ts lines 107-132): recompute the
metadata, then write the whole list to the primary file. -/
def TodoStorageS.saveToFile (s : TodoStorageS) (now : Nat) : TodoStorageS :=
  let d := TodoStorageS.updateMetadata s.data now
  { s with data := d, writes := s.writes ++ [d] }

/-- `TodoStorage.getAllTodos` (storage.ts lines 246-249). -/
def TodoStorageS.getAllTodos (s : TodoStorageS) :
    Except StoreErr (List Todo) :=
  match s.ensureInit with
  | some e => .error e
  | none => .ok s.data.todos

/-- `TodoStorage.getTodoById` (storage.ts lines 254-257). -/
def TodoStorageS.getTodoById (s : TodoStorageS) (id : String) :
    Except StoreErr (Option Todo) :=
  match s.ensureInit with
  | some e => .error e
  | none => .ok (s.data.todos.find? (fun t => t.id = id))

/-- `TodoStorage.addTodo` (storage.ts lines 262-288). On error the state
is returned unchanged (the JS method throws before mutating `this.data`). -/
def TodoStorageS.addTodo (s : TodoStorageS) (t : Todo) (now : Nat) :
    Except StoreErr Todo × TodoStorageS :=
  match s.ensureInit with
  | some e => (.error e, s)
  | none =>
    if !TodoUtils.validateTodoB t then
      (.error (.validation "Invalid todo data"), s)
    else if s.data.todos.any (fun e => e.id = t.id) then
      (.error (.validation ("Todo with ID " ++ t.id ++ " already exists")), s)
    else
      (.ok t, TodoStorageS.saveToFile
        { s with data := { s.data with todos := s.data.todos ++ [t] } } now)

/-- Replace the first todo whose id matches by `m` (the
`findIndex`-then-assign of storage.ts lines 296-318). -/
def replaceFirstTodo (todos : List Todo) (id : String) (m : Todo) : List Todo :=
  match todos with
  | [] => []
  | t :: ts => if t.id = id then m :: ts else t :: replaceFirstTodo ts id m

/-- `TodoStorage.updateTodo` (storage.ts lines 293-323). -/
def TodoStorageS.updateTodo (s : TodoStorageS) (id : String) (u : TodoUpdate)
    (now : Nat) : Except StoreErr Todo × TodoStorageS :=
  match s.ensureInit with
  | some e => (.error e, s)
  | none =>
    match s.data.todos.find? (fun t => t.id = id) with
    | none => (.error (.notFound "todo" id), s)
    | some existing =>
      if !TodoUtils.validateTodoB (TodoUtils.applyUpdate existing u now) then
        (.error (.validation "Updated todo data is invalid"), s)
      else
        (.ok (TodoUtils.applyUpdate existing u now),
         TodoStorageS.saveToFile
           { s with data := { s.data with
               todos := replaceFirstTodo s.data.todos id
                 (TodoUtils.applyUpdate existing u now) } } now)

/-- `TodoStorage.deleteTodo` (storage.ts lines 328-339): `false` with no
write when the id is absent, remove-and-persist otherwise. -/
def TodoStorageS.deleteTodo (s : TodoStorageS) (id : String) (now : Nat) :
    Except StoreErr Bool × TodoStorageS :=
  match s.ensureInit with
  | some e => (.error e, s)
  | none =>
    if s.data.todos.any (fun t => t.id = id) then
      (.ok true, TodoStorageS.saveToFile
        { s with data := { s.data with
            todos := s.data.todos.eraseP (fun t => t.id = id) } } now)
    else
      (.ok false, s)

/-- `TodoStorage.getTodoList` (storage.ts lines 344-348): recompute the
metadata in place, return a copy of the data; no disk write. -/
def TodoStorageS.getTodoList (s : TodoStorageS) (now : Nat) :
    Except StoreErr TodoList × TodoStorageS :=
  match s.ensureInit with
  | some e => (.error e, s)
  | none =>
    let d := TodoStorageS.updateMetadata s.data now
    (.ok d, { s with data := d })

/-- `TodoStorage.clearAllTodos` (storage.ts lines 353-357). -/
def TodoStorageS.clearAllTodos (s : TodoStorageS) (now : Nat) :
    Except StoreErr Unit × TodoStorageS :=
  match s.ensureInit with
  | some e => (.error e, s)
  | none =>
    (.ok (), TodoStorageS.saveToFile
      { s with data := { s.data with todos := [] } } now)

/-- `TodoStorage.getStats` (storage.ts lines 362-365). -/
def TodoStorageS.getStats (s : TodoStorageS) (now : Nat) :
    Except StoreErr Stats :=
  match s.ensureInit with
  | some e => .error e
  | none => .ok (TodoUtils.getStats s.data.todos now)

/-- Replace the first occurrence of `pat` in a character list by `rep`
(the semantics of JS `String.prototype.replace` with a string pattern:
only the first occurrence is replaced; no occurrence leaves the string
unchanged). -/
def replaceFirstL (l pat rep : List Char) : List Char :=
  match l with
  | [] => []
  | c :: rest =>
    if pat.isPrefixOf (c :: rest) then rep ++ (c :: rest).drop pat.length
    else c :: replaceFirstL rest pat rep

/-- Whether `pat` occurs as a contiguous sublist of `l`. -/
def occursL (l pat : List Char) : Bool :=
  match l with
  | [] => pat.isPrefixOf ([] : List Char)
  | c :: rest => pat.isPrefixOf (c :: rest) || occursL rest pat

/-- JS `s.replace(pat, rep)` for a plain-string `pat`. -/
def jsReplaceFirst (s pat rep : String) : String :=
  ⟨replaceFirstL s.data pat.data rep.data⟩

/-- Whether `pat` occurs in `s`. -/
def strOccurs (s pat : String) : Bool :=
  occursL s.data pat.data

/-- `new Date().toISOString().replace(/[:.]/g, '-')` of storage.ts line
373: every colon and dot of the timestamp becomes a hyphen. -/
def sanitizeTs (s : String) : String :=
  ⟨s.data.map (fun c => if c = ':' ∨ c = '.' then '-' else c)⟩

/-- The backup path computed by `TodoStorage.createBackup` (storage.ts
line 374): the first occurrence of `".json"` in the store path is replaced
by `"_backup_<sanitized timestamp>.json"`. -/
def backupPathOf (filePath isoTs : String) : String :=
  jsReplaceFirst filePath ".json" ("_backup_" ++ sanitizeTs isoTs ++ ".json")

/-- `TodoStorage.createBackup` (storage.ts lines 370-383): serialize the
current in-memory data — with *no* `updateMetadata` — to the backup path. -/
def TodoStorageS.createBackup (s : TodoStorageS) (isoTs : String) :
    Except StoreErr String × TodoStorageS :=
  match s.ensureInit with
  | some e => (.error e, s)
  | none =>
    let bp := backupPathOf s.filePath isoTs
    (.ok bp, { s with backups := s.backups ++ [(bp, s.data)] })

/-- `TodoStorage.restoreFromBackup` (storage.ts lines 388-399). There is
no `ensureInitialized` call. `loaded` is the outcome of
`readFile`+`JSON.parse`+`validateAndMigrate` on the backup path — `.error`
when any of them throws (its message), `.ok` the validated TodoList
(the raw pipeline `validateAndMigrateJ` models that step on raw JSON; here
its typed result is taken as given). On success the data is replaced and
persisted to the *primary* store path via `saveToFile`. -/
def TodoStorageS.restoreFromBackup (s : TodoStorageS)
    (loaded : Except String TodoList) (now : Nat) :
    Except StoreErr Unit × TodoStorageS :=
  match loaded with
  | .error m => (.error (.generic ("Failed to restore from backup: " ++ m)), s)
  | .ok l =>
    (.ok (), TodoStorageS.saveToFile { s with data := l } now)

example :
    (TodoStorageS.createBackup
      { filePath := "./todos.json",
        data := { todos := [],
                  metadata := { version := "1.0.0", lastModified := 0,
                                totalCount := 0, completedCount := 0 } },
        isInit := true, writes := [], backups := [] }
      "2024-01-01T00:00:00.000Z").1
    = .ok "./todos_backup_2024-01-01T00-00-00-000Z.json" := rfl

/-! ## The initialize / retry model (raw layer)

`TodoStorage.initialize` (storage.ts lines 39-75) together with
`RetryHandler.withRetry` (errors.ts lines 630-671). The file system is an
environment assigning an outcome to each successive read attempt. -/

/-- Outcome of one `fs.readFile` + `JSON.parse` attempt on the store file. -/
inductive ReadOutcome where
  | enoent
  | ioError
  | malformed
  | json (j : JValue)

/-- Errors `loadFromFile` (storage.ts lines 80-102) can raise, classified
the way `initialize` and `withRetry` inspect them: an ENOENT I/O error, a
non-ENOENT I/O error, the parse `FileError` (operation=read), a
`ValidationError` from migration, or a raw TypeError from migration. Only
`ValidationError` (and `NotFoundError`, which cannot arise here) makes
`withRetry` rethrow without retrying. -/
inductive LoadErr where
  | enoent
  | io
  | fileRead
  | validationE (msg : String)
  | typeErr
deriving DecidableEq

/-- Does `withRetry` skip retrying this error
(`error instanceof ValidationError || error instanceof NotFoundError`)? -/
def LoadErr.skipsRetry : LoadErr → Bool
  | .validationE _ => true
  | _ => false

/-- `TodoStorage.loadFromFile` on one read outcome: read, parse (a parse
failure is the `FileError('Invalid JSON in storage file', 'read', ...)`),
then `validateAndMigrate`. -/
def loadFromFileM (gen : Nat → String) (now : String) :
    ReadOutcome → Except LoadErr (JValue × Option JValue)
  | .enoent => .error .enoent
  | .ioError => .error .io
  | .malformed => .error .fileRead
  | .json j =>
    match validateAndMigrateJ gen now j with
    | .ok r => .ok r
    | .error (.validation m) => .error (.validationE m)
    | .error .typeErr => .error .typeErr

/-- Result of `initialize`: either `Ready` or the wrapping `StorageError`
(storage.ts lines 69-74 wrap *every* failure, whatever its class, in
`StorageError('Failed to initialize storage: ...')`). -/
inductive InitResult where
  | ready
  | storageErr
deriving DecidableEq

/-- The retry loop of `RetryHandler.withRetry(() => this.loadFromFile(), 3,
1000)`: `attempt` counts 1-based; after a failed attempt `k < maxRetries`
it sleeps `delayMs * 2 ^ (k - 1)` (the source comment says "Exponential
backoff"); a ValidationError/NotFoundError is rethrown at once. Returns
(outcome, reads performed, delays slept). -/
def withRetryLoad (reads : Nat → ReadOutcome) (gen : Nat → String)
    (now : String) (delayMs : Nat) :
    Nat → Nat → InitResult × Nat × List Nat
  | _, 0 => (.storageErr, 0, [])
  | attempt, remaining + 1 =>
    match loadFromFileM gen now (reads attempt) with
    | .ok _ => (.ready, 1, [])
    | .error e =>
      if e.skipsRetry then (.storageErr, 1, [])
      else if remaining = 0 then (.storageErr, 1, [])
      else
        let rec_ := withRetryLoad reads gen now delayMs (attempt + 1) remaining
        (rec_.1, rec_.2.1 + 1, delayMs * 2 ^ (attempt - 1) :: rec_.2.2)

/-- `TodoStorage.initialize` (storage.ts lines 39-75): mkdir, a first
`loadFromFile`; on ENOENT bootstrap a fresh file (`writeOk` is that
write's outcome); on any other failure run `withRetry(loadFromFile, 3,
1000)`, reading attempts 1, 2, 3 of the environment. Every error escaping
the inner logic is wrapped into `StorageError`. Returns (outcome, total
read attempts, delays slept in ms). -/
def initStore (mkdirOk writeOk : Bool) (reads : Nat → ReadOutcome)
    (gen : Nat → String) (now : String) : InitResult × Nat × List Nat :=
  if !mkdirOk then (.storageErr, 0, [])
  else
    match loadFromFileM gen now (reads 0) with
    | .ok _ => (.ready, 1, [])
    | .error .enoent =>
      if writeOk then (.ready, 1, []) else (.storageErr, 1, [])
    | .error _ =>
      let r := withRetryLoad reads gen now 1000 1 3
      (r.1, r.2.1 + 1, r.2.2)

/-! ## Statistics lemmas -/

lemma statsStep_total (now : Nat) (acc : Stats) (t : Todo) :
    (TodoUtils.statsStep now acc t).total = acc.total := rfl

lemma foldl_statsStep_total (now : Nat) (l : List Todo) (acc : Stats) :
    (l.foldl (TodoUtils.statsStep now) acc).total = acc.total := by
  induction l generalizing acc with
  | nil => rfl
  | cons t ts ih => simp [List.foldl_cons, ih, statsStep_total]

lemma foldl_statsStep_completed (now : Nat) (l : List Todo) (acc : Stats) :
    (l.foldl (TodoUtils.statsStep now) acc).completed =
      acc.completed + l.countP (fun t => t.completed) := by
  induction l generalizing acc with
  | nil => simp
  | cons t ts ih =>
    simp only [List.foldl_cons, ih, List.countP_cons, TodoUtils.statsStep]
    by_cases h : t.completed <;> simp [h] <;> omega

lemma foldl_statsStep_overdue (now : Nat) (l : List Todo) (acc : Stats) :
    (l.foldl (TodoUtils.statsStep now) acc).overdue =
      acc.overdue + l.countP (fun t => TodoUtils.isOverdue t now) := by
  induction l generalizing acc with
  | nil => simp
  | cons t ts ih =>
    simp only [List.foldl_cons, ih, List.countP_cons, TodoUtils.statsStep]
    by_cases h : TodoUtils.isOverdue t now <;> simp [h] <;> omega

lemma foldl_statsStep_byLow (now : Nat) (l : List Todo) (acc : Stats) :
    (l.foldl (TodoUtils.statsStep now) acc).byLow =
      acc.byLow + l.countP (fun t => t.priority = Priority.low) := by
  induction l generalizing acc with
  | nil => simp
  | cons t ts ih =>
    simp only [List.foldl_cons, ih, List.countP_cons, TodoUtils.statsStep]
    by_cases h : t.priority = Priority.low <;> simp [h] <;> omega

lemma foldl_statsStep_byMedium (now : Nat) (l : List Todo) (acc : Stats) :
    (l.foldl (TodoUtils.statsStep now) acc).byMedium =
      acc.byMedium + l.countP (fun t => t.priority = Priority.medium) := by
  induction l generalizing acc with
  | nil => simp
  | cons t ts ih =>
    simp only [List.foldl_cons, ih, List.countP_cons, TodoUtils.statsStep]
    by_cases h : t.priority = Priority.medium <;> simp [h] <;> omega

lemma foldl_statsStep_byHigh (now : Nat) (l : List Todo) (acc : Stats) :
    (l.foldl (TodoUtils.statsStep now) acc).byHigh =
      acc.byHigh + l.countP (fun t => t.priority = Priority.high) := by
  induction l generalizing acc with
  | nil => simp
  | cons t ts ih =>
    simp only [List.foldl_cons, ih, List.countP_cons, TodoUtils.statsStep]
    by_cases h : t.priority = Priority.high <;> simp [h] <;> omega

lemma getStats_total (todos : List Todo) (now : Nat) :
    (TodoUtils.getStats todos now).total = todos.length := by
  simp [TodoUtils.getStats, foldl_statsStep_total]

lemma getStats_completed (todos : List Todo) (now : Nat) :
    (TodoUtils.getStats todos now).completed =
      todos.countP (fun t => t.completed) := by
  simp [TodoUtils.getStats, foldl_statsStep_completed]

lemma getStats_overdue (todos : List Todo) (now : Nat) :
    (TodoUtils.getStats todos now).overdue =
      todos.countP (fun t => TodoUtils.isOverdue t now) := by
  simp [TodoUtils.getStats, foldl_statsStep_overdue]

lemma countP_priority_split (todos : List Todo) :
    todos.countP (fun t => t.priority = Priority.low) +
      todos.countP (fun t => t.priority = Priority.medium) +
      todos.countP (fun t => t.priority = Priority.high) = todos.length := by
  induction todos with
  | nil => simp
  | cons t ts ih =>
    simp only [List.countP_cons, List.length_cons]
    cases h : t.priority <;> simp [h] <;> omega

/-- C7: for every sequence of Todos and every current time, `getStats`
returns `total` = length of the sequence, `completed` = number of
completed Todos, `overdue` = number of Todos with a dueDate strictly
before now and completed=false, and the three `byPriority` buckets sum to
`total`. -/
theorem c7_getStats_correct (todos : List Todo) (now : Nat) :
    (TodoUtils.getStats todos now).total = todos.length ∧
    (TodoUtils.getStats todos now).completed =
      todos.countP (fun t => t.completed) ∧
    (TodoUtils.getStats todos now).overdue =
      todos.countP (fun t =>
        (match t.dueDate with
         | some d => decide (d < now)
         | none => false) && !t.completed) ∧
    (TodoUtils.getStats todos now).byLow + (TodoUtils.getStats todos now).byMedium +
      (TodoUtils.getStats todos now).byHigh = (TodoUtils.getStats todos now).total := by
  refine ⟨getStats_total todos now, getStats_completed todos now, ?_, ?_⟩
  · simpa [TodoUtils.isOverdue] using getStats_overdue todos now
  · simp only [TodoUtils.getStats, foldl_statsStep_byLow, foldl_statsStep_byMedium,
      foldl_statsStep_byHigh, foldl_statsStep_total, Nat.zero_add]
    exact countP_priority_split todos

/-! ## Shared helpers for the initialization-guard and metadata claims -/

/-- The `StorageError` thrown by `ensureInitialized`. -/
def notInitErr : StoreErr :=
  .storage "Storage not initialized. Call initialize() first."

/-- Metadata counts agree with the live todos sequence. -/
def metaConsistent (d : TodoList) : Prop :=
  d.metadata.totalCount = d.todos.length ∧
  d.metadata.completedCount = d.todos.countP (fun t => t.completed)

lemma updateMetadata_consistent (d : TodoList) (now : Nat) :
    metaConsistent (TodoStorageS.updateMetadata d now) :=
  ⟨by simp [TodoStorageS.updateMetadata, getStats_total],
   by simp [TodoStorageS.updateMetadata, getStats_completed]⟩

lemma mem_writes_saveToFile (s1 : TodoStorageS) (now : Nat) (w : TodoList)
    (hw : w ∈ (s1.saveToFile now).writes) : w ∈ s1.writes ∨ metaConsistent w := by
  simp only [TodoStorageS.saveToFile, List.mem_append, List.mem_singleton] at hw
  rcases hw with h | h
  · exact .inl h
  · exact .inr (h ▸ updateMetadata_consistent s1.data now)

/-- On a store whose `isInitialized` flag is false, every operation that
calls `ensureInitialized` fails with the "not initialized" `StorageError`
and leaves the state unchanged. -/
lemma uninitOpsFail (s : TodoStorageS) (h : s.isInit = false) (id : String)
    (t : Todo) (u : TodoUpdate) (now : Nat) (ts : String) :
    s.getAllTodos = .error notInitErr ∧
    s.getTodoById id = .error notInitErr ∧
    s.addTodo t now = (.error notInitErr, s) ∧
    s.updateTodo id u now = (.error notInitErr, s) ∧
    s.deleteTodo id now = (.error notInitErr, s) ∧
    s.clearAllTodos now = (.error notInitErr, s) ∧
    s.getStats now = .error notInitErr ∧
    s.getTodoList now = (.error notInitErr, s) ∧
    s.createBackup ts = (.error notInitErr, s) := by
  refine ⟨?_, ?_, ?_, ?_, ?_, ?_, ?_, ?_, ?_⟩ <;>
    simp [TodoStorageS.getAllTodos, TodoStorageS.getTodoById, TodoStorageS.addTodo,
      TodoStorageS.updateTodo, TodoStorageS.deleteTodo, TodoStorageS.clearAllTodos,
      TodoStorageS.getStats, TodoStorageS.getTodoList, TodoStorageS.createBackup,
      TodoStorageS.ensureInit, h, notInitErr]

/-- An empty v1.0.0 TodoList (the constructor default of storage.ts
lines 25-33, with epoch timestamp 0). -/
def emptyTodoList : TodoList :=
  { todos := [],
    metadata := { version := "1.0.0", lastModified := 0,
                  totalCount := 0, completedCount := 0 } }

/-- An uninitialized store (freshly constructed, `initialize` not called). -/
def uninitStore : TodoStorageS :=
  { filePath := "./todos.json", data := emptyTodoList, isInit := false,
    writes := [], backups := [] }

/-- C2 (counterexample): `restoreFromBackup`, invoked on an Uninitialized
store with a backup file that validates, succeeds — it does not fail with
the "not initialized" `StorageError`, because `restoreFromBackup` is the
one public operation besides `initialize` that never calls
`ensureInitialized`. -/
theorem c2_counterexample :
    uninitStore.isInit = false ∧
    (uninitStore.restoreFromBackup (.ok emptyTodoList) 5).1 = .ok () :=
  ⟨rfl, rfl⟩

/-- C2 (amended): every public Store operation other than `initialize`
*and `restoreFromBackup`* — that is, getAllTodos, getTodoById, addTodo,
updateTodo, deleteTodo, clearAllTodos, getStats, getTodoList and
createBackup — fails with the "not initialized" `StorageError` when
invoked while Uninitialized, leaving the state unchanged. -/
theorem c2_uninit_guard (s : TodoStorageS) (h : s.isInit = false) (id : String)
    (t : Todo) (u : TodoUpdate) (now : Nat) (ts : String) :
    s.getAllTodos = .error notInitErr ∧
    s.getTodoById id = .error notInitErr ∧
    s.addTodo t now = (.error notInitErr, s) ∧
    s.updateTodo id u now = (.error notInitErr, s) ∧
    s.deleteTodo id now = (.error notInitErr, s) ∧
    s.clearAllTodos now = (.error notInitErr, s) ∧
    s.getStats now = .error notInitErr ∧
    s.getTodoList now = (.error notInitErr, s) ∧
    s.createBackup ts = (.error notInitErr, s) :=
  uninitOpsFail s h id t u now ts

/-- C2 (witness): the guard at a concrete uninitialized store. -/
theorem c2_uninit_guard_witness :
    uninitStore.getAllTodos = .error notInitErr ∧
    uninitStore.getTodoById "x" = .error notInitErr ∧
    uninitStore.addTodo
        { id := "x", title := "t", description := "", completed := false,
          createdAt := 0, updatedAt := 0, dueDate := none,
          priority := .medium, tags := [] } 1 = (.error notInitErr, uninitStore) ∧
    uninitStore.updateTodo "x" {} 1 = (.error notInitErr, uninitStore) ∧
    uninitStore.deleteTodo "x" 1 = (.error notInitErr, uninitStore) ∧
    uninitStore.clearAllTodos 1 = (.error notInitErr, uninitStore) ∧
    uninitStore.getStats 1 = .error notInitErr ∧
    uninitStore.getTodoList 1 = (.error notInitErr, uninitStore) ∧
    uninitStore.createBackup "2024-01-01T00:00:00.000Z" =
      (.error notInitErr, uninitStore) :=
  c2_uninit_guard uninitStore rfl "x" _ {} 1 "2024-01-01T00:00:00.000Z"

/-- C10: `restoreFromBackup` never changes the `isInitialized` flag: with
content that parses and validates (or migrates) to a TodoList `l`, it
succeeds, replaces the in-memory data by `l` (with metadata recomputed by
the save), persists it to the primary store path, and keeps the flag's
prior value; a failed load leaves the state untouched; on an Uninitialized
store it succeeds without a "not initialized" `StorageError`, and
afterwards every other operation except `initialize` still fails with that
`StorageError`. -/
theorem c10_restore_preserves_flag (s : TodoStorageS) (l : TodoList)
    (m : String) (now : Nat) (id : String) (t : Todo) (u : TodoUpdate)
    (ts : String) :
    (s.restoreFromBackup (.ok l) now).1 = .ok () ∧
    (s.restoreFromBackup (.ok l) now).2.isInit = s.isInit ∧
    (s.restoreFromBackup (.ok l) now).2.data =
      TodoStorageS.updateMetadata l now ∧
    (s.restoreFromBackup (.ok l) now).2.writes =
      s.writes ++ [TodoStorageS.updateMetadata l now] ∧
    (s.restoreFromBackup (.error m) now).2 = s ∧
    (s.isInit = false →
      ((s.restoreFromBackup (.ok l) now).2.getAllTodos = .error notInitErr ∧
       (s.restoreFromBackup (.ok l) now).2.getTodoById id = .error notInitErr ∧
       (s.restoreFromBackup (.ok l) now).2.addTodo t now =
         (.error notInitErr, (s.restoreFromBackup (.ok l) now).2) ∧
       (s.restoreFromBackup (.ok l) now).2.updateTodo id u now =
         (.error notInitErr, (s.restoreFromBackup (.ok l) now).2) ∧
       (s.restoreFromBackup (.ok l) now).2.deleteTodo id now =
         (.error notInitErr, (s.restoreFromBackup (.ok l) now).2) ∧
       (s.restoreFromBackup (.ok l) now).2.clearAllTodos now =
         (.error notInitErr, (s.restoreFromBackup (.ok l) now).2) ∧
       (s.restoreFromBackup (.ok l) now).2.getStats now = .error notInitErr ∧
       (s.restoreFromBackup (.ok l) now).2.getTodoList now =
         (.error notInitErr, (s.restoreFromBackup (.ok l) now).2) ∧
       (s.restoreFromBackup (.ok l) now).2.createBackup ts =
         (.error notInitErr, (s.restoreFromBackup (.ok l) now).2))) := by
  refine ⟨rfl, rfl, rfl, rfl, rfl, fun h => ?_⟩
  exact uninitOpsFail (s.restoreFromBackup (.ok l) now).2 h id t u now ts

/-- C10 (witness): restore on a concrete uninitialized store. -/
theorem c10_restore_preserves_flag_witness :
    (uninitStore.restoreFromBackup (.ok emptyTodoList) 5).1 = .ok () ∧
    (uninitStore.restoreFromBackup (.ok emptyTodoList) 5).2.isInit =
      uninitStore.isInit ∧
    (uninitStore.restoreFromBackup (.ok emptyTodoList) 5).2.getStats 5 =
      .error notInitErr :=
  ⟨(c10_restore_preserves_flag uninitStore emptyTodoList "m" 5 "x"
      { id := "x", title := "t", description := "", completed := false,
        createdAt := 0, updatedAt := 0, dueDate := none,
        priority := .medium, tags := [] } {} "ts").1,
   (c10_restore_preserves_flag uninitStore emptyTodoList "m" 5 "x"
      { id := "x", title := "t", description := "", completed := false,
        createdAt := 0, updatedAt := 0, dueDate := none,
        priority := .medium, tags := [] } {} "ts").2.1,
   ((c10_restore_preserves_flag uninitStore emptyTodoList "m" 5 "x"
      { id := "x", title := "t", description := "", completed := false,
        createdAt := 0, updatedAt := 0, dueDate := none,
        priority := .medium, tags := [] } {} "ts").2.2.2.2.2 rfl).2.2.2.2.2.2.1⟩

/-- A schema-valid stored todo with a proper uuid id. -/
def todoA : Todo :=
  { id := "123e4567-e89b-42d3-a456-426614174000", title := "A",
    description := "", completed := false, createdAt := 0, updatedAt := 0,
    dueDate := none, priority := .medium, tags := [] }

/-- A ready store holding exactly `todoA`. -/
def storeA : TodoStorageS :=
  { filePath := "./todos.json",
    data := { todos := [todoA], metadata := emptyTodoList.metadata },
    isInit := true, writes := [], backups := [] }

/-- A todo reusing `todoA`'s id but failing schema validation (empty title). -/
def todoBadDup : Todo := { todoA with title := "" }

/-- C5 (counterexample): an `addTodo` whose id equals a stored Todo's id
does *not* always fail with the "already exists" ValidationError: when the
duplicate todo itself fails schema validation, `validateTodo` runs first
and the error is the ValidationError "Invalid todo data" instead. -/
theorem c5_counterexample :
    todoBadDup.id = todoA.id ∧
    (storeA.addTodo todoBadDup 5).1 = .error (.validation "Invalid todo data") ∧
    (storeA.addTodo todoBadDup 5).2 = storeA ∧
    "Invalid todo data" ≠ "Todo with ID " ++ todoBadDup.id ++ " already exists" :=
  ⟨rfl, rfl, rfl, by decide⟩

/-- C5 (amended): no two stored Todos ever share an id — `addTodo` of a
todo whose id is already stored always fails with a `ValidationError`
(message "already exists" when the todo is schema-valid, "Invalid todo
data" when it is not) and leaves the state unchanged with nothing
persisted; and every `addTodo` call preserves distinctness of the stored
ids. -/
theorem c5_add_unique (s : TodoStorageS) (t : Todo) (now : Nat)
    (hinit : s.isInit = true)
    (hdup : s.data.todos.any (fun e => e.id = t.id) = true) :
    s.addTodo t now =
      (.error (.validation (if TodoUtils.validateTodoB t
          then "Todo with ID " ++ t.id ++ " already exists"
          else "Invalid todo data")), s) ∧
    (∀ (t2 : Todo) (now2 : Nat),
      (s.data.todos.map (fun e => e.id)).Nodup →
        (((s.addTodo t2 now2).2).data.todos.map (fun e => e.id)).Nodup) := by
  constructor
  · by_cases hv : TodoUtils.validateTodoB t <;>
      simp [TodoStorageS.addTodo, TodoStorageS.ensureInit, hinit, hdup, hv]
  · intro t2 now2 hn
    by_cases hv : TodoUtils.validateTodoB t2
    · by_cases hd : s.data.todos.any (fun e => e.id = t2.id)
      · simpa [TodoStorageS.addTodo, TodoStorageS.ensureInit, hinit, hv, hd]
          using hn
      · have hnotin : t2.id ∉ s.data.todos.map (fun e => e.id) := by
          simp only [List.any_eq_true, decide_eq_true_eq] at hd
          simpa [List.mem_map] using fun x hx hxid => hd ⟨x, hx, hxid⟩
        have hsucc : ((s.addTodo t2 now2).2).data.todos = s.data.todos ++ [t2] := by
          simp [TodoStorageS.addTodo, TodoStorageS.ensureInit, hinit, hv, hd,
            TodoStorageS.saveToFile, TodoStorageS.updateMetadata]
        rw [hsucc, List.map_append, List.nodup_append]
        refine ⟨hn, List.nodup_singleton _, ?_⟩
        intro a ha hb
        simp only [List.map_singleton, List.mem_singleton] at hb
        subst hb
        exact hnotin ha
    · simpa [TodoStorageS.addTodo, TodoStorageS.ensureInit, hinit, hv] using hn

/-- C5 (witness): the amended behavior at a concrete duplicate add. -/
theorem c5_add_unique_witness :
    storeA.addTodo todoA 5 =
      (.error (.validation (if TodoUtils.validateTodoB todoA
          then "Todo with ID " ++ todoA.id ++ " already exists"
          else "Invalid todo data")), storeA) ∧
    ((storeA.addTodo todoA 5).2.data.todos.map (fun e => e.id)).Nodup :=
  ⟨(c5_add_unique storeA todoA 5 rfl rfl).1,
   (c5_add_unique storeA todoA 5 rfl rfl).2 todoA 5 (by decide)⟩

/-- C4 (counterexample): `createdAt` *is* overwritten when supplied: the
store's `updateTodo` accepts `Partial<Omit<Todo, 'id'>>`, which includes
`createdAt`, and the spread in `TodoUtils.updateTodo` applies it. Updating
`todoA` (createdAt = 0) with `{ createdAt: 555 }` stores createdAt = 555. -/
theorem c4_counterexample :
    (storeA.updateTodo todoA.id { createdAt := some 555 } 7).1 =
      .ok { todoA with createdAt := 555, updatedAt := 7 } ∧
    (storeA.updateTodo todoA.id { createdAt := some 555 } 7).2.data.todos =
      [{ todoA with createdAt := 555, updatedAt := 7 }] ∧
    todoA.createdAt = 0 ∧ (555 : Nat) ≠ 0 :=
  ⟨rfl, rfl, rfl, by decide⟩

/-- C4 (amended): `updateTodo` applies exactly the fields present in the
partial update over the existing Todo. The id cannot be supplied (the
update type omits it) and is preserved; `createdAt`, which the update type
*does* admit, is overwritten when supplied and preserved otherwise; a
supplied `updatedAt` is ignored — `updatedAt` is always set to the current
time, which is ≥ the previous `updatedAt` whenever the clock has not gone
backwards; and a found-and-valid store update stores exactly the merged
todo. -/
theorem c4_update_fields (t : Todo) (u : TodoUpdate) (now : Nat) :
    (TodoUtils.applyUpdate t u now).id = t.id ∧
    (TodoUtils.applyUpdate t u now).createdAt = u.createdAt.getD t.createdAt ∧
    (TodoUtils.applyUpdate t u now).updatedAt = now ∧
    (t.updatedAt ≤ now → t.updatedAt ≤ (TodoUtils.applyUpdate t u now).updatedAt) ∧
    (TodoUtils.applyUpdate t u now).title = u.title.getD t.title ∧
    (TodoUtils.applyUpdate t u now).description = u.description.getD t.description ∧
    (TodoUtils.applyUpdate t u now).completed = u.completed.getD t.completed ∧
    (TodoUtils.applyUpdate t u now).priority = u.priority.getD t.priority ∧
    (TodoUtils.applyUpdate t u now).tags = u.tags.getD t.tags ∧
    (u.dueDate = none → (TodoUtils.applyUpdate t u now).dueDate = t.dueDate) ∧
    (∀ d, u.dueDate = some d → (TodoUtils.applyUpdate t u now).dueDate = some d) ∧
    (∀ (s : TodoStorageS) (id : String), s.isInit = true →
      s.data.todos.find? (fun x => x.id = id) = some t →
      TodoUtils.validateTodoB (TodoUtils.applyUpdate t u now) = true →
      (s.updateTodo id u now).1 = .ok (TodoUtils.applyUpdate t u now)) := by
  refine ⟨rfl, rfl, rfl, fun h => h, rfl, rfl, rfl, rfl, rfl, ?_, ?_, ?_⟩
  · intro h
    simp [TodoUtils.applyUpdate, h]
  · intro d h
    simp [TodoUtils.applyUpdate, h]
  · intro s id hinit hfind hvalid
    simp [TodoStorageS.updateTodo, TodoStorageS.ensureInit, hinit, hfind, hvalid]

/-- C4 (witness): the amended field behavior at a concrete update that
supplies `createdAt` and `updatedAt` and leaves the rest absent. -/
theorem c4_update_fields_witness :
    (TodoUtils.applyUpdate todoA
      { createdAt := some 555, updatedAt := some 999 } 7).id = todoA.id ∧
    (TodoUtils.applyUpdate todoA
      { createdAt := some 555, updatedAt := some 999 } 7).createdAt =
      (some 555).getD todoA.createdAt ∧
    (TodoUtils.applyUpdate todoA
      { createdAt := some 555, updatedAt := some 999 } 7).updatedAt = 7 ∧
    todoA.updatedAt ≤ (TodoUtils.applyUpdate todoA
      { createdAt := some 555, updatedAt := some 999 } 7).updatedAt ∧
    (storeA.updateTodo todoA.id
      { createdAt := some 555, updatedAt := some 999 } 7).1 =
      .ok (TodoUtils.applyUpdate todoA
        { createdAt := some 555, updatedAt := some 999 } 7) :=
  ⟨(c4_update_fields todoA { createdAt := some 555, updatedAt := some 999 } 7).1,
   (c4_update_fields todoA { createdAt := some 555, updatedAt := some 999 } 7).2.1,
   (c4_update_fields todoA { createdAt := some 555, updatedAt := some 999 } 7).2.2.1,
   (c4_update_fields todoA { createdAt := some 555, updatedAt := some 999 } 7).2.2.2.1
     (by decide),
   (c4_update_fields todoA { createdAt := some 555, updatedAt := some 999 }
       7).2.2.2.2.2.2.2.2.2.2.2 storeA todoA.id rfl (by decide) (by decide)⟩

/-- A schema-valid on-disk file whose counts disagree with its todos:
`totalCount` 99 with an empty `todos` array (the schema only requires
nonnegative integers). -/
def staleCountFile : JValue :=
  mkTodoListObj [] (mkMetaObj "1.0.0" "2024-01-01T00:00:00Z" 99 0)

/-- The in-memory state after loading `staleCountFile`: the load keeps the
counts verbatim (`validateAndMigrate` returns the parsed value, no
recompute). -/
def staleStore : TodoStorageS :=
  { filePath := "./todos.json",
    data := { todos := [],
              metadata := { version := "1.0.0", lastModified := 0,
                            totalCount := 99, completedCount := 0 } },
    isInit := true, writes := [], backups := [] }

/-- C8 (counterexample): metadata is *not* recomputed before every save to
disk: `createBackup` serializes the in-memory TodoList verbatim. A
schema-valid file with `totalCount` 99 and zero todos passes validation
unchanged (first conjunct), and a backup taken from the resulting state
writes metadata whose `totalCount` 99 differs from the live todos count 0. -/
theorem c8_counterexample :
    zodParseTodoListJ staleCountFile = some staleCountFile ∧
    (staleStore.createBackup "2024-01-01T00:00:00.000Z").2.backups =
      [("./todos_backup_2024-01-01T00-00-00-000Z.json", staleStore.data)] ∧
    staleStore.data.metadata.totalCount = 99 ∧
    staleStore.data.todos.length = 0 :=
  ⟨rfl, rfl, rfl, rfl⟩

/-- C8 (amended): the Store recomputes `totalCount` (= length of todos),
`completedCount` (= number of completed todos) and `lastModified` before
every *saveToFile* — i.e. before the persist of every mutating operation
(add, update, delete, clear, restore) — and before every `getTodoList`
call, rather than trusting the counts read from the file on load;
`createBackup`, however, writes the in-memory TodoList to disk without
recomputing. -/
theorem c8_metadata_recompute (s : TodoStorageS) (now : Nat) (t : Todo)
    (id : String) (u : TodoUpdate) (lr : Except String TodoList)
    (h : s.isInit = true) :
    ((s.getTodoList now).1 = .ok (TodoStorageS.updateMetadata s.data now) ∧
      metaConsistent (TodoStorageS.updateMetadata s.data now) ∧
      (TodoStorageS.updateMetadata s.data now).metadata.lastModified = now) ∧
    (∀ w ∈ (s.addTodo t now).2.writes, w ∈ s.writes ∨ metaConsistent w) ∧
    (∀ w ∈ (s.updateTodo id u now).2.writes, w ∈ s.writes ∨ metaConsistent w) ∧
    (∀ w ∈ (s.deleteTodo id now).2.writes, w ∈ s.writes ∨ metaConsistent w) ∧
    (∀ w ∈ (s.clearAllTodos now).2.writes, w ∈ s.writes ∨ metaConsistent w) ∧
    (∀ w ∈ (s.restoreFromBackup lr now).2.writes,
      w ∈ s.writes ∨ metaConsistent w) := by
  refine ⟨⟨?_, updateMetadata_consistent s.data now, rfl⟩, ?_, ?_, ?_, ?_, ?_⟩
  · simp [TodoStorageS.getTodoList, TodoStorageS.ensureInit, h]
  · intro w hw
    unfold TodoStorageS.addTodo at hw
    split at hw
    · exact .inl hw
    · split at hw
      · exact .inl hw
      · split at hw
        · exact .inl hw
        · exact mem_writes_saveToFile
            { s with data := { s.data with todos := s.data.todos ++ [t] } }
            now w hw
  · intro w hw
    unfold TodoStorageS.updateTodo at hw
    split at hw
    · exact .inl hw
    · split at hw
      · exact .inl hw
      · rename_i existing heq
        split at hw
        · exact .inl hw
        · exact mem_writes_saveToFile
            { s with data := { s.data with
                todos := replaceFirstTodo s.data.todos id
                  (TodoUtils.applyUpdate existing u now) } } now w hw
  · intro w hw
    unfold TodoStorageS.deleteTodo at hw
    split at hw
    · exact .inl hw
    · split at hw
      · exact mem_writes_saveToFile
          { s with data := { s.data with
              todos := s.data.todos.eraseP (fun x => x.id = id) } } now w hw
      · exact .inl hw
  · intro w hw
    unfold TodoStorageS.clearAllTodos at hw
    split at hw
    · exact .inl hw
    · exact mem_writes_saveToFile
        { s with data := { s.data with todos := [] } } now w hw
  · intro w hw
    unfold TodoStorageS.restoreFromBackup at hw
    split at hw
    · exact .inl hw
    · rename_i hmatch l
      exact mem_writes_saveToFile { s with data := l } now w hw

/-- C8 (witness): the amended recompute guarantees at a concrete store. -/
theorem c8_metadata_recompute_witness :
    (staleStore.getTodoList 5).1 =
      .ok (TodoStorageS.updateMetadata staleStore.data 5) ∧
    metaConsistent (TodoStorageS.updateMetadata staleStore.data 5) ∧
    (∀ w ∈ (staleStore.clearAllTodos 5).2.writes,
      w ∈ staleStore.writes ∨ metaConsistent w) :=
  ⟨(c8_metadata_recompute staleStore 5 todoA "x" {} (.ok emptyTodoList) rfl).1.1,
   (c8_metadata_recompute staleStore 5 todoA "x" {} (.ok emptyTodoList) rfl).1.2.1,
   (c8_metadata_recompute staleStore 5 todoA "x" {}
      (.ok emptyTodoList) rfl).2.2.2.2.1⟩

/-! ## Backup-path lemmas (C9) -/

lemma replaceFirstL_length (pat rep : List Char) (hp : pat ≠ []) :
    ∀ l : List Char, occursL l pat = true →
      (replaceFirstL l pat rep).length + pat.length = l.length + rep.length := by
  intro l
  induction l with
  | nil =>
    intro h
    cases pat with
    | nil => exact absurd rfl hp
    | cons a as => simp [occursL, List.isPrefixOf] at h
  | cons c rest ih =>
    intro h
    by_cases hpre : pat.isPrefixOf (c :: rest)
    · have hlen : pat.length ≤ (c :: rest).length :=
        (List.isPrefixOf_iff_prefix.mp hpre).length_le
      simp only [replaceFirstL, hpre, if_true, List.length_append,
        List.length_drop, List.length_cons]
      simp only [List.length_cons] at hlen
      omega
    · have h2 : occursL rest pat = true := by
        simpa [occursL, hpre] using h
      have := ih h2
      simp only [replaceFirstL, hpre, Bool.false_eq_true, if_false,
        List.length_cons]
      omega

lemma backupPathOf_ne (path ts : String)
    (hocc : strOccurs path ".json" = true) : backupPathOf path ts ≠ path := by
  have hrep : ("_backup_" ++ sanitizeTs ts ++ ".json").data.length
      = 13 + ts.data.length := by
    rw [String.data_append, String.data_append]
    have h8 : "_backup_".data.length = 8 := rfl
    have h5 : ".json".data.length = 5 := rfl
    have hsan : (sanitizeTs ts).data.length = ts.data.length := by
      simp [sanitizeTs]
    rw [List.length_append, List.length_append, h8, h5, hsan]
    omega
  have hlen := replaceFirstL_length ".json".data
    ("_backup_" ++ sanitizeTs ts ++ ".json").data (by decide) path.data hocc
  intro heq
  have hdata : (backupPathOf path ts).data = path.data :=
    congrArg String.data heq
  have hlen2 : (replaceFirstL path.data ".json".data
      ("_backup_" ++ sanitizeTs ts ++ ".json").data).length
      = path.data.length := congrArg List.length hdata
  have h5 : (".json" : String).data.length = 5 := rfl
  rw [hlen2, hrep, h5] at hlen
  omega

/-- A ready store whose path has no ".json" to replace. -/
def storeTxt : TodoStorageS :=
  { filePath := "todos.txt", data := emptyTodoList, isInit := true,
    writes := [], backups := [] }

/-- C9 (counterexample): `createBackup` does *not* always return a path
different from the store path: the source computes
`filePath.replace('.json', ...)`, so a store path without ".json" (here
"todos.txt") is returned unchanged — the "backup" path equals the primary
store path and nothing is inserted before the extension. -/
theorem c9_counterexample :
    (storeTxt.createBackup "2024-01-01T00:00:00.000Z").1 = .ok "todos.txt" ∧
    storeTxt.filePath = "todos.txt" :=
  ⟨rfl, rfl⟩

/-- C9 (amended): `createBackup` serializes the current in-memory TodoList
to the path obtained by replacing the *first occurrence* of ".json" in the
store path with "_backup_<sanitized timestamp>.json", and returns that
path; whenever the store path contains ".json" the backup path differs
from the primary store path (when it does not, the path is returned
unchanged). -/
theorem c9_backup_path (s : TodoStorageS) (ts : String)
    (hinit : s.isInit = true)
    (hocc : strOccurs s.filePath ".json" = true) :
    (s.createBackup ts).1 = .ok (backupPathOf s.filePath ts) ∧
    (s.createBackup ts).2 = { s with backups :=
        s.backups ++ [(backupPathOf s.filePath ts, s.data)] } ∧
    backupPathOf s.filePath ts ≠ s.filePath := by
  refine ⟨?_, ?_, backupPathOf_ne s.filePath ts hocc⟩ <;>
    simp [TodoStorageS.createBackup, TodoStorageS.ensureInit, hinit]

/-- C9 (witness): the backup path at the default store path
"./todos.json". -/
theorem c9_backup_path_witness :
    (storeA.createBackup "2024-01-01T00:00:00.000Z").1 =
      .ok (backupPathOf storeA.filePath "2024-01-01T00:00:00.000Z") ∧
    backupPathOf storeA.filePath "2024-01-01T00:00:00.000Z" ≠ storeA.filePath :=
  ⟨(c9_backup_path storeA "2024-01-01T00:00:00.000Z" rfl rfl).1,
   (c9_backup_path storeA "2024-01-01T00:00:00.000Z" rfl rfl).2.2⟩

/-! ## Initialization / retry (C3) -/

/-- A fixed uuid-shaped fresh-id generator for concrete runs. -/
def genU : Nat → String := fun _ => "123e4567-e89b-42d3-a456-426614174000"

/-- A fixed current timestamp for concrete runs. -/
def nowS : String := "2024-01-01T00:00:00Z"

/-- C3 (counterexample): with the store file present but holding malformed
JSON on every read, `initialize` performs 4 reads in total (the initial
one plus 3 retries — the parse `FileError` is *not* exempt from retry),
sleeps 1000 ms then 2000 ms (doubling, not a fixed 1-second backoff), and
surfaces a `StorageError`, not an immediate `FileError`. -/
theorem c3_counterexample :
    initStore true true (fun _ => .malformed) genU nowS =
      (.storageErr, 4, [1000, 2000]) ∧
    ([1000, 2000] : List Nat) ≠ [1000, 1000] ∧ (4 : Nat) ≠ 1 :=
  ⟨rfl, by decide, by decide⟩

/-- C3 (amended): when the store file exists but reading it fails for any
reason other than not-found — a transient I/O error *or* a JSON parse
failure, which raises a `FileError` (operation=read) but is retried like
any other non-ENOENT, non-ValidationError failure — the read is retried up
to 3 times with exponential backoff doubling from 1 second (delays 1000 ms
then 2000 ms) before a `StorageError` is surfaced; a retry that succeeds
stops the loop with no further delay. -/
theorem c3_retry_behavior (reads : Nat → ReadOutcome) (gen : Nat → String)
    (now : String) (wOk : Bool)
    (h : ∀ k, k ≤ 3 → reads k = .ioError ∨ reads k = .malformed) :
    initStore true wOk reads gen now = (.storageErr, 4, [1000, 2000]) ∧
    (∀ (reads2 : Nat → ReadOutcome) (j : JValue) (d : JValue × Option JValue),
      reads2 0 = .malformed → reads2 1 = .json j →
      validateAndMigrateJ gen now j = .ok d →
      initStore true wOk reads2 gen now = (.ready, 2, [])) := by
  constructor
  · rcases h 0 (by omega) with h0 | h0 <;>
      rcases h 1 (by omega) with h1 | h1 <;>
      rcases h 2 (by omega) with h2 | h2 <;>
      rcases h 3 (by omega) with h3 | h3 <;>
      simp [initStore, withRetryLoad, loadFromFileM, h0, h1, h2, h3,
        LoadErr.skipsRetry]
  · intro reads2 j d h0 h1 hj
    simp [initStore, withRetryLoad, loadFromFileM, h0, h1, hj,
      LoadErr.skipsRetry]

/-- C3 (witness): the amended retry behavior on an environment whose
reads always fail with a non-ENOENT I/O error, and a run whose first
retry succeeds on a schema-valid file. -/
theorem c3_retry_behavior_witness :
    initStore true true (fun _ => .ioError) genU nowS =
      (.storageErr, 4, [1000, 2000]) ∧
    initStore true true
      (fun k => if k = 0 then .malformed
        else .json (mkTodoListObj [] (mkMetaObj "1.0.0" nowS 0 0)))
      genU nowS = (.ready, 2, []) :=
  ⟨(c3_retry_behavior (fun _ => .ioError) genU nowS true
      (fun _ _ => Or.inl rfl)).1,
   (c3_retry_behavior (fun _ => .ioError) genU nowS true
      (fun _ _ => Or.inl rfl)).2
     (fun k => if k = 0 then .malformed
       else .json (mkTodoListObj [] (mkMetaObj "1.0.0" nowS 0 0)))
     (mkTodoListObj [] (mkMetaObj "1.0.0" nowS 0 0))
     (mkTodoListObj [] (mkMetaObj "1.0.0" nowS 0 0), none) rfl rfl rfl⟩

/-! ## Legacy-array migration rules (C6) -/

/-- A legacy element whose `title` is present but empty. -/
def emptyTitleElem : JValue := .obj [("title", .str "")]

/-- C6 (counterexample): the coercion rules are not only about *missing*
fields: a legacy element whose `title` is present but empty (falsy) also
becomes "Untitled" — the source tests `todo.title || 'Untitled'`, so a
present field beyond the claimed rules is replaced. -/
theorem c6_counterexample :
    jGet emptyTitleElem "title" = some (.str "") ∧
    jGet (migrateTodoElemJ "g1" "2024-01-01T00:00:00Z" emptyTitleElem)
      "title" = some (.str "Untitled") :=
  ⟨rfl, rfl⟩

/-- C6 (amended): in the legacy array migration every element is coerced
by exactly these rules, where each default applies to a *missing or falsy*
field: id → the freshly generated id, title → "Untitled", description →
"", createdAt/updatedAt → the current timestamp, priority → "medium";
`completed` becomes the truthiness of the original value; `tags` is kept
exactly when it is an array and becomes the empty list otherwise;
`dueDate` is dropped when missing or falsy and kept otherwise; and the
migrated TodoList is persisted to disk before being returned (the write
content equals the returned value). -/
theorem c6_migration_rules (gid now : String) (t : JValue)
    (gen : Nat → String) (elems : List JValue)
    (hnn : elems.any isNullB = false) :
    jGet (migrateTodoElemJ gid now t) "id" =
      some (jsOr (jGet t "id") (.str gid)) ∧
    jGet (migrateTodoElemJ gid now t) "title" =
      some (jsOr (jGet t "title") (.str "Untitled")) ∧
    jGet (migrateTodoElemJ gid now t) "description" =
      some (jsOr (jGet t "description") (.str "")) ∧
    jGet (migrateTodoElemJ gid now t) "completed" =
      some (.bool (optTruthy (jGet t "completed"))) ∧
    jGet (migrateTodoElemJ gid now t) "createdAt" =
      some (jsOr (jGet t "createdAt") (.str now)) ∧
    jGet (migrateTodoElemJ gid now t) "updatedAt" =
      some (jsOr (jGet t "updatedAt") (.str now)) ∧
    (optTruthy (jGet t "dueDate") = false →
      jGet (migrateTodoElemJ gid now t) "dueDate" = none) ∧
    (∀ v, jGet t "dueDate" = some v → jsTruthy v = true →
      jGet (migrateTodoElemJ gid now t) "dueDate" = some v) ∧
    jGet (migrateTodoElemJ gid now t) "priority" =
      some (jsOr (jGet t "priority") (.str "medium")) ∧
    jGet (migrateTodoElemJ gid now t) "tags" =
      some (match jGet t "tags" with
            | some (.arr xs) => .arr xs
            | _ => .arr []) ∧
    migrateDataJ gen now (.arr elems) =
      .ok (mkTodoListObj (migrateTodos gen now 0 elems)
             (mkMetaObj "1.0.0" now (elems.length : Int)
               (((elems.filter (fun e => optTruthy (jGet e "completed"))).length : Int))),
           some (mkTodoListObj (migrateTodos gen now 0 elems)
             (mkMetaObj "1.0.0" now (elems.length : Int)
               (((elems.filter (fun e => optTruthy (jGet e "completed"))).length : Int))))) := by
  refine ⟨rfl, rfl, rfl, rfl, rfl, rfl, ?_, ?_, ?_, ?_, ?_⟩
  · intro hfl
    rcases hd : jGet t "dueDate" with _ | v
    · simp only [migrateTodoElemJ, hd]
      simp [jGet, lookupField]
    · rw [hd] at hfl
      simp only [optTruthy] at hfl
      simp only [migrateTodoElemJ, hd, hfl]
      simp [jGet, lookupField]
  · intro v hd hv
    simp only [migrateTodoElemJ, hd, hv]
    simp [jGet, lookupField]
  · rcases hd : jGet t "dueDate" with _ | v
    · simp only [migrateTodoElemJ, hd]
      simp [jGet, lookupField]
    · by_cases hv : jsTruthy v
      · simp only [migrateTodoElemJ, hd, hv]
        simp [jGet, lookupField]
      · simp only [migrateTodoElemJ, hd, if_neg hv]
        simp [jGet, lookupField]
  · rcases hd : jGet t "dueDate" with _ | v
    · simp only [migrateTodoElemJ, hd]
      simp [jGet, lookupField]
    · by_cases hv : jsTruthy v
      · simp only [migrateTodoElemJ, hd, hv]
        simp [jGet, lookupField]
      · simp only [migrateTodoElemJ, hd, if_neg hv]
        simp [jGet, lookupField]
  · simp [migrateDataJ, hnn]

/-- C6 (witness): the amended rules at a concrete element with an empty
title, no id, truthy completed, and a non-array `tags`. -/
theorem c6_migration_rules_witness :
    jGet (migrateTodoElemJ "g1" "2024-01-01T00:00:00Z" emptyTitleElem) "id" =
      some (jsOr (jGet emptyTitleElem "id") (.str "g1")) ∧
    jGet (migrateTodoElemJ "g1" "2024-01-01T00:00:00Z" emptyTitleElem)
      "dueDate" = none ∧
    migrateDataJ genU "2024-01-01T00:00:00Z" (.arr [emptyTitleElem]) =
      .ok (mkTodoListObj (migrateTodos genU "2024-01-01T00:00:00Z" 0 [emptyTitleElem])
             (mkMetaObj "1.0.0" "2024-01-01T00:00:00Z" 1 0),
           some (mkTodoListObj (migrateTodos genU "2024-01-01T00:00:00Z" 0 [emptyTitleElem])
             (mkMetaObj "1.0.0" "2024-01-01T00:00:00Z" 1 0))) :=
  ⟨(c6_migration_rules "g1" "2024-01-01T00:00:00Z" emptyTitleElem genU
      [emptyTitleElem] rfl).1,
   (c6_migration_rules "g1" "2024-01-01T00:00:00Z" emptyTitleElem genU
      [emptyTitleElem] rfl).2.2.2.2.2.2.1 rfl,
   (c6_migration_rules "g1" "2024-01-01T00:00:00Z" emptyTitleElem genU
      [emptyTitleElem] rfl).2.2.2.2.2.2.2.2.2.2⟩

/-! ## Migration idempotence (C1) -/

lemma parseTags_map (xs : List JValue) :
    ∀ ss : List String, parseTags xs = some ss → ss.map JValue.str = xs := by
  induction xs with
  | nil =>
    intro ss h
    simp [parseTags] at h
    simp [← h]
  | cons x rest ih =>
    intro ss h
    cases x with
    | str s =>
      simp only [parseTags] at h
      split at h
      · simp only [Option.map_eq_some'] at h
        obtain ⟨ss', hss', rfl⟩ := h
        simp [ih ss' hss']
      · simp at h
    | null => simp [parseTags] at h
    | bool b => simp [parseTags] at h
    | num n => simp [parseTags] at h
    | arr a => simp [parseTags] at h
    | obj o => simp [parseTags] at h

/-- A raw (possibly missing) field is compatible with a string check `p`:
when truthy, it must be a string satisfying `p`; when missing or falsy the
migration default replaces it anyway. -/
def okStrField (o : Option JValue) (p : String → Bool) : Bool :=
  match o with
  | some v =>
    if jsTruthy v then
      match v with
      | .str s => p s
      | _ => false
    else true
  | none => true

lemma jsOr_str_spec (o : Option JValue) (p : String → Bool) (d : String)
    (ho : okStrField o p = true) (hd : p d = true) :
    ∃ s, jsOr o (.str d) = .str s ∧ p s = true ∧ (s = d ∨ s ≠ "") := by
  cases o with
  | none => exact ⟨d, rfl, hd, .inl rfl⟩
  | some v =>
    by_cases hv : jsTruthy v
    · cases v with
      | str s =>
        refine ⟨s, by simp [jsOr, hv], ?_, .inr ?_⟩
        · simpa [okStrField, hv] using ho
        · simpa [jsTruthy] using hv
      | null => simp [jsTruthy] at hv
      | bool b => simp [okStrField, hv] at ho
      | num n => simp [okStrField, hv] at ho
      | arr a => simp [okStrField, hv] at ho
      | obj f => simp [okStrField, hv] at ho
    · refine ⟨d, ?_, hd, .inl rfl⟩
      simp [jsOr, hv]

lemma length_pos_of_ne_empty (s : String) (h : s ≠ "") : 1 ≤ s.length := by
  cases s with
  | mk data =>
    cases data with
    | nil => exact absurd rfl h
    | cons c cs => simp [String.length]

/-- Schema-compatibility of one legacy element: every *truthy* field must
already be a string (resp. array) meeting the corresponding
`TodoSchema` refinement; missing or falsy fields are compatible because
the migration defaults replace them. -/
def legacyElemOkB (t : JValue) : Bool :=
  okStrField (jGet t "id") isUuid &&
  okStrField (jGet t "title") (fun s => s.length ≤ 200) &&
  okStrField (jGet t "description") (fun s => s.length ≤ 1000) &&
  okStrField (jGet t "createdAt") isDatetime &&
  okStrField (jGet t "updatedAt") isDatetime &&
  okStrField (jGet t "dueDate") isDate &&
  okStrField (jGet t "priority")
    (fun s => s = "low" || s = "medium" || s = "high") &&
  (match jGet t "tags" with
   | some (.arr xs) => xs.length ≤ 10 && (parseTags xs).isSome
   | _ => true)

lemma zodParse_mig_elem (gid nw : String) (t : JValue)
    (hgid : isUuid gid = true) (hnw : isDatetime nw = true)
    (ht : legacyElemOkB t = true) :
    zodParseTodoJ (migrateTodoElemJ gid nw t) =
      some (migrateTodoElemJ gid nw t) := by
  simp only [legacyElemOkB, Bool.and_eq_true] at ht
  obtain ⟨⟨⟨⟨⟨⟨⟨hid, htitle⟩, hdesc⟩, hca⟩, hua⟩, hdue⟩, hpr⟩, htags⟩ := ht
  obtain ⟨s1, e1, p1, -⟩ := jsOr_str_spec _ _ gid hid hgid
  obtain ⟨s2, e2, p2, q2⟩ := jsOr_str_spec _ _ "Untitled" htitle (by decide)
  obtain ⟨s3, e3, p3, -⟩ := jsOr_str_spec _ _ "" hdesc (by decide)
  obtain ⟨s5, e5, p5, -⟩ := jsOr_str_spec _ _ nw hca hnw
  obtain ⟨s6, e6, p6, -⟩ := jsOr_str_spec _ _ nw hua hnw
  obtain ⟨s7, e7, p7, -⟩ := jsOr_str_spec _ _ "medium" hpr (by decide)
  have h1le : 1 ≤ s2.length := by
    rcases q2 with rfl | hq
    · decide
    · exact length_pos_of_ne_empty _ hq
  have hp200 : s2.length ≤ 200 := by simpa using p2
  have hp3 : s3.length ≤ 1000 := by simpa using p3
  have hp7 : s7 = "low" ∨ s7 = "medium" ∨ s7 = "high" := by
    simpa [Bool.or_eq_true, decide_eq_true_eq, or_assoc] using p7
  have htags' : ∃ (xs : List JValue) (ss : List String),
      (match jGet t "tags" with
       | some (.arr xs) => JValue.arr xs
       | _ => JValue.arr []) = .arr xs ∧
      xs.length ≤ 10 ∧ parseTags xs = some ss := by
    revert htags
    rcases hjt : jGet t "tags" with - | v
    · exact fun _ => ⟨[], [], by simp [hjt], by simp, by simp [parseTags]⟩
    · cases v with
      | arr xs =>
        intro htags
        simp only [hjt, Bool.and_eq_true, decide_eq_true_eq,
          Option.isSome_iff_exists] at htags
        obtain ⟨h10, ss, hss⟩ := htags
        exact ⟨xs, ss, by simp [hjt], h10, hss⟩
      | null => exact fun _ => ⟨[], [], by simp [hjt], by simp, by simp [parseTags]⟩
      | bool b => exact fun _ => ⟨[], [], by simp [hjt], by simp, by simp [parseTags]⟩
      | num n => exact fun _ => ⟨[], [], by simp [hjt], by simp, by simp [parseTags]⟩
      | str s => exact fun _ => ⟨[], [], by simp [hjt], by simp, by simp [parseTags]⟩
      | obj f => exact fun _ => ⟨[], [], by simp [hjt], by simp, by simp [parseTags]⟩
  obtain ⟨xs, ss, etags, hxs10, hparse⟩ := htags'
  have hmap := parseTags_map xs ss hparse
  rcases hd : jGet t "dueDate" with - | v
  · simp only [migrateTodoElemJ, hd, e1, e2, e3, e5, e6, e7, etags]
    simp [zodParseTodoJ, jGet, lookupField, getStr?, p1, hp3, p5, p6,
      hp7, hxs10, hparse, hmap, mkTodoObj]
    exact ⟨by omega, hp200⟩
  · by_cases hv : jsTruthy v
    · have hsd : ∃ sd, v = .str sd ∧ isDate sd = true := by
        rw [hd] at hdue
        cases v with
        | str sd => exact ⟨sd, rfl, by simpa [okStrField, hv] using hdue⟩
        | null => simp [jsTruthy] at hv
        | bool b => simp [okStrField, hv] at hdue
        | num n => simp [okStrField, hv] at hdue
        | arr a => simp [okStrField, hv] at hdue
        | obj f => simp [okStrField, hv] at hdue
      obtain ⟨sd, rfl, hpd⟩ := hsd
      simp only [migrateTodoElemJ, hd, e1, e2, e3, e5, e6, e7, etags, hv,
        if_true]
      simp [zodParseTodoJ, jGet, lookupField, getStr?, p1, hp3, p5, p6,
        hp7, hpd, hxs10, hparse, hmap, mkTodoObj]
      exact ⟨by omega, hp200⟩
    · simp only [migrateTodoElemJ, hd, e1, e2, e3, e5, e6, e7, etags,
        if_neg hv]
      simp [zodParseTodoJ, jGet, lookupField, getStr?, p1, hp3, p5, p6,
        hp7, hxs10, hparse, hmap, mkTodoObj]
      exact ⟨by omega, hp200⟩

lemma zodParseTodosJ_migrated (gen : Nat → String) (nw : String)
    (hgen : ∀ i, isUuid (gen i) = true) (hnw : isDatetime nw = true) :
    ∀ (elems : List JValue) (i : Nat), elems.all legacyElemOkB = true →
      zodParseTodosJ (migrateTodos gen nw i elems) =
        some (migrateTodos gen nw i elems) := by
  intro elems
  induction elems with
  | nil => intro i _; simp [migrateTodos, zodParseTodosJ]
  | cons t ts ih =>
    intro i h
    simp only [List.all_cons, Bool.and_eq_true] at h
    simp only [migrateTodos, zodParseTodosJ,
      zodParse_mig_elem (gen i) nw t (hgen i) hnw h.1, ih (i + 1) h.2,
      Option.map_some']

/-- The TodoList value the array migration produces (and writes). -/
def migratedOf (gen : Nat → String) (now : String) (elems : List JValue) :
    JValue :=
  mkTodoListObj (migrateTodos gen now 0 elems)
    (mkMetaObj "1.0.0" now (elems.length : Int)
      (((elems.filter (fun e => optTruthy (jGet e "completed"))).length : Int)))

lemma zodParse_migratedOf (gen : Nat → String) (now : String)
    (elems : List JValue)
    (hgen : ∀ i, isUuid (gen i) = true) (hnow : isDatetime now = true)
    (hall : elems.all legacyElemOkB = true) :
    zodParseTodoListJ (migratedOf gen now elems) =
      some (migratedOf gen now elems) := by
  have h0 : ¬((elems.length : Int) < 0) := by omega
  have h1 : ¬(((elems.filter
      (fun e => optTruthy (jGet e "completed"))).length : Int) < 0) := by omega
  simp [migratedOf, zodParseTodoListJ, mkTodoListObj, mkMetaObj, jGet,
    lookupField, zodParseTodosJ_migrated gen now hgen hnow elems 0 hall,
    getStr?, getInt?, hnow, h0, h1]

/-- C1 (amended): migrating a legacy array whose elements are
schema-compatible — every truthy field already meets the v1.0.0 `TodoSchema`
refinements (truthy ids are UUID strings, truthy priorities are
low/medium/high, tags arrays hold ≤ 10 strings of ≤ 50 characters, truthy
timestamps are valid, no element is `null`) — once, persisting the result,
then re-loading the persisted v1.0.0 file through the same
validate-or-migrate pipeline, produces the identical TodoList both times
with no further write on the second load. Without that compatibility the
migrated file keeps the offending fields verbatim and the second load
*fails* (see the counterexample). -/
theorem c1_migration_idempotence (gen : Nat → String) (now : String)
    (elems : List JValue)
    (hnn : elems.any isNullB = false)
    (hgen : ∀ i, isUuid (gen i) = true) (hnow : isDatetime now = true)
    (hall : elems.all legacyElemOkB = true) :
    validateAndMigrateJ gen now (.arr elems) =
      .ok (migratedOf gen now elems, some (migratedOf gen now elems)) ∧
    ∀ (gen2 : Nat → String) (now2 : String),
      validateAndMigrateJ gen2 now2 (migratedOf gen now elems) =
        .ok (migratedOf gen now elems, none) := by
  constructor
  · have harr : zodParseTodoListJ (.arr elems) = none := rfl
    simp [validateAndMigrateJ, harr, migrateDataJ, hnn, migratedOf,
      mkTodoListObj, mkMetaObj]
  · intro gen2 now2
    simp [validateAndMigrateJ,
      zodParse_migratedOf gen now elems hgen hnow hall]

/-- The legacy file of the spec's own example scenario 4: one element with
the non-UUID id "a". -/
def legacyA : JValue :=
  .arr [.obj [("id", .str "a"), ("title", .str "Old"),
              ("completed", .bool true)]]

/-- C1 (counterexample): migrating the spec's own example legacy file once
succeeds and persists, but re-loading the persisted v1.0.0 file does *not*
produce the same TodoList again: the migration kept the non-UUID id "a"
verbatim, so `TodoListSchema.parse` fails on the second load, and the
wrapped v1.0.0 object matches no migration branch — the second load fails
with the "unsupported format" ValidationError instead of returning an
identical TodoList. -/
theorem c1_counterexample :
    validateAndMigrateJ genU nowS legacyA =
      .ok (migratedOf genU nowS
             [.obj [("id", .str "a"), ("title", .str "Old"),
                    ("completed", .bool true)]],
           some (migratedOf genU nowS
             [.obj [("id", .str "a"), ("title", .str "Old"),
                    ("completed", .bool true)]])) ∧
    validateAndMigrateJ genU nowS
        (migratedOf genU nowS
          [.obj [("id", .str "a"), ("title", .str "Old"),
                 ("completed", .bool true)]]) =
      .error (.validation "Unable to migrate todo data - unsupported format") :=
  ⟨rfl, rfl⟩

/-- A schema-compatible legacy element (UUID id, short title). -/
def compatElems : List JValue :=
  [.obj [("id", .str "123e4567-e89b-42d3-a456-426614174000"),
         ("title", .str "Old"), ("completed", .bool true)]]

/-- C1 (witness): the amended idempotence at a concrete compatible legacy
array. -/
theorem c1_migration_idempotence_witness :
    validateAndMigrateJ genU nowS (.arr compatElems) =
      .ok (migratedOf genU nowS compatElems,
           some (migratedOf genU nowS compatElems)) ∧
    validateAndMigrateJ genU nowS (migratedOf genU nowS compatElems) =
      .ok (migratedOf genU nowS compatElems, none) :=
  ⟨(c1_migration_idempotence genU nowS compatElems rfl (fun _ => rfl)
      rfl rfl).1,
   (c1_migration_idempotence genU nowS compatElems rfl (fun _ => rfl)
      rfl rfl).2 genU nowS⟩
